import Mathlib

/-!
Shallow embedding of the `my-interpreter` sources (`src/lexer.rs`,
`src/parser.rs`, `src/interpreter.rs`) and proofs about the claims of the
specification.  Numeric values (`f64` in the source) are modelled by `ℚ`;
every arithmetic operation appearing in the settled claims is exact in
binary64 at the inputs involved, and the one lossy conversion the code
performs (`u64 as f64`) is modelled by explicit round-to-nearest-even at 53
significant bits.
-/

set_option maxRecDepth 100000

set_option allowUnsafeReducibility true in
attribute [semireducible] Rat.add Rat.mul Rat.sub Rat.div Rat.neg Rat.inv

namespace ZInterp

/-- `Token` from `lexer.rs`.  `bad` carries the `LexerError` message. -/
inductive Token where
  | number : ℚ → Token
  | endOfStatement : Token
  | identifier : String → Token
  | minus : Token
  | plus : Token
  | product : Token
  | division : Token
  | exponent : Token
  | openParen : Token
  | closeParen : Token
  | useless : Char → Token
  | bad : String → Token
  | bytesLeft : Token
  | bytesRight : Token
deriving DecidableEq

/-- Lexer state: `input` (the borrowed source string, as a codepoint list)
and `cursor`.  The Rust cursor counts bytes and advances by `len_utf8`;
since it is only ever used to take the suffix `input[cursor..]`, counting
codepoints is an equivalent faithful model. -/
structure Lexer where
  input : List Char
  cursor : ℕ
deriving DecidableEq

/-- `Lexer::peek_char`. -/
def peekChar (l : Lexer) : Option Char :=
  (l.input.drop l.cursor).head?

/-- `Lexer::consume` (the returned char is dropped at every call site,
so only the state is returned). -/
def consumeChar (l : Lexer) : Lexer :=
  match peekChar l with
  | some _ => { l with cursor := l.cursor + 1 }
  | none => l

/-- `Lexer::consume_while`. -/
def consumeWhile (condition : Char → Bool) (l : Lexer) : List Char × Lexer :=
  let t := (l.input.drop l.cursor).takeWhile condition
  (t, { l with cursor := l.cursor + t.length })

/-- Rust `char::is_whitespace` (the Unicode White_Space property). -/
def rustIsWhitespace (c : Char) : Bool :=
  c == ' ' || c == '\t' || c == '\n' || c == '\x0b' || c == '\x0c' || c == '\r' ||
  c.toNat == 0x85 || c.toNat == 0xA0 || c.toNat == 0x1680 ||
  (0x2000 ≤ c.toNat && c.toNat ≤ 0x200A) ||
  c.toNat == 0x2028 || c.toNat == 0x2029 || c.toNat == 0x202F ||
  c.toNat == 0x205F || c.toNat == 0x3000

/-- `Lexer::skip_whitespace`. -/
def skipWhitespace (l : Lexer) : Lexer :=
  (consumeWhile rustIsWhitespace l).2

/-- Value of a digit run (`num_str.parse::<f64>()` is exact on the small
integers the claims evaluate). -/
def digitsToNat (ds : List Char) : ℕ :=
  ds.foldl (fun a c => a * 10 + (c.toNat - 48)) 0

/-- The token built at the end of `Lexer::parse_number`: Rust
`num_str.parse::<f64>()` succeeds iff `num_str` contains at least one
digit. -/
def numberToken (isNegative : Bool) (intDs fracDs : List Char) (hasDot : Bool) : Token :=
  if intDs = [] ∧ fracDs = [] then
    Token.bad ("Invalid number: " ++ (if hasDot then "." else ""))
  else
    let v : ℚ :=
      mkRat (digitsToNat intDs * 10 ^ fracDs.length + digitsToNat fracDs) (10 ^ fracDs.length)
    Token.number (if isNegative then -v else v)

/-- `Lexer::parse_number`. -/
def parseNumber (isNegative : Bool) (l : Lexer) : Token × Lexer :=
  let p1 := consumeWhile Char.isDigit l
  if peekChar p1.2 = some '.' ∨ peekChar p1.2 = some ',' then
    let l2 := consumeChar p1.2
    let p2 := consumeWhile Char.isDigit l2
    (numberToken isNegative p1.1 p2.1 true, p2.2)
  else
    (numberToken isNegative p1.1 [] false, p1.2)

/-- `Lexer::parse_identifier`. -/
def parseIdentifier (l : Lexer) : Token × Lexer :=
  let p := consumeWhile (fun c => c.isAlpha && c != ';') l
  (Token.identifier (String.mk p.1), p.2)

/-- `Lexer::next_token`.  The branches mirror the source `match` arm by
arm.  Note that the source's `'<'` arm, unlike the `'>'` arm, performs no
`consume()` call at all, so its `peek_char()` re-reads the very `'<'`
that was matched and the state is returned unchanged. -/
def nextToken (l0 : Lexer) : Option (Token × Lexer) :=
  let l := skipWhitespace l0
  match peekChar l with
  | none => none
  | some c =>
    if c = '-' then
      let l1 := consumeChar l
      match peekChar l1 with
      | some nxt => if nxt.isDigit then some (parseNumber true l1) else some (Token.minus, l1)
      | none => some (Token.minus, l1)
    else if c = '+' then some (Token.plus, consumeChar l)
    else if c = '*' then
      let l1 := consumeChar l
      if peekChar l1 = some '*' then some (Token.exponent, consumeChar l1)
      else some (Token.product, l1)
    else if c = '^' then some (Token.exponent, consumeChar l)
    else if c = '(' then some (Token.openParen, consumeChar l)
    else if c = ')' then some (Token.closeParen, consumeChar l)
    else if c = ';' then some (Token.endOfStatement, consumeChar l)
    else if c = '/' then some (Token.division, consumeChar l)
    else if c = '<' then
      match peekChar l with
      | some ch => if ch = '<' then some (Token.bytesLeft, l) else some (Token.useless ch, l)
      | none => some (Token.useless '<', l)
    else if c = '>' then
      let l1 := consumeChar l
      match peekChar l1 with
      | some ch =>
        if ch = '>' then some (Token.bytesRight, consumeChar l1)
        else some (Token.useless '>', l1)
      | none => some (Token.useless '>', l1)
    else if c.isDigit then some (parseNumber false l)
    else if c.isAlpha then some (parseIdentifier l)
    else some (Token.useless c, consumeChar l)

/-- Driving the iterator: collect the token stream, with fuel bounding the
number of `next_token` calls (`none` = fuel exhausted before the stream
ended). -/
def tokenizeFuel : ℕ → Lexer → Option (List Token)
  | 0, l =>
    match nextToken l with
    | none => some []
    | some _ => none
  | n + 1, l =>
    match nextToken l with
    | none => some []
    | some (t, l1) => (tokenizeFuel n l1).map (fun ts => t :: ts)

/-- Scanning a whole source string.  Every yielded token of a terminating
scan consumes at least one character, so `length + 1` calls suffice
whenever the stream is finite. -/
def scan (s : String) : Option (List Token) :=
  tokenizeFuel (s.length + 1) ⟨s.data, 0⟩

/-- State after `n + 1` calls to `next_token`, for the infinite-stream
argument. -/
def nthLexState (l : Lexer) : ℕ → Option (Token × Lexer)
  | 0 => nextToken l
  | n + 1 =>
    match nthLexState l n with
    | some (_, l1) => nextToken l1
    | none => none

/-- `BinaryExpressionType` from `parser.rs`. -/
inductive BinaryExpressionType where
  | sum : BinaryExpressionType
  | product : BinaryExpressionType
  | division : BinaryExpressionType
  | minus : BinaryExpressionType
  | exponent : BinaryExpressionType
  | bytesLeft : BinaryExpressionType
  | bytesRight : BinaryExpressionType
deriving DecidableEq

/-- `Expression` from `parser.rs`. -/
inductive Expression where
  | number : ℚ → Expression
  | identifier : String → Expression
  | binary : BinaryExpressionType → Expression → Expression → Expression
deriving DecidableEq

/-- `Colored` from `parser.rs`. -/
inductive Colored where
  | red | blue | green | yellow | purple | cyan | orange | white | brown | pink | multiColor
deriving DecidableEq

/-- `Statement` from `parser.rs`. -/
inductive Statement where
  | expression : Expression → Statement
  | print : Expression → Statement
  | printColored : Colored → Expression → Statement
  | assignment : String → Expression → Statement
deriving DecidableEq

/-- Parser state: `tokens` is the not-yet-pulled remainder of the token
iterator, `current` the one-token lookahead. -/
structure PState where
  tokens : List Token
  current : Option Token
deriving DecidableEq

/-- `Parser::new`: pulls the first token into `current`. -/
def PState.new (ts : List Token) : PState :=
  ⟨ts.tail, ts.head?⟩

/-- `Parser::consume`: `current = tokens.next()`. -/
def PState.consume (s : PState) : PState :=
  ⟨s.tokens.tail, s.tokens.head?⟩

/-- Result of a parser entry: `ok`, a recoverable `ParseError` (`err`), a
Rust `panic!` (`fatal`), or fuel exhaustion of the embedding (`noFuel`,
never reached in any theorem below). -/
inductive Res (α : Type) where
  | ok : α → Res α
  | err : String → Res α
  | fatal : String → Res α
  | noFuel : Res α
deriving DecidableEq

mutual

/-- `Parser::term_expression` (entry: parse the first factor). -/
def termExpression : ℕ → PState → Res (Expression × PState)
  | 0, _ => .noFuel
  | n + 1, s =>
    match factorExpression n s with
    | .ok (left, s1) => termLoop n left s1
    | .err e => .err e
    | .fatal m => .fatal m
    | .noFuel => .noFuel

/-- The `while` loop of `term_expression` (`+` / `-`, left-associative). -/
def termLoop : ℕ → Expression → PState → Res (Expression × PState)
  | 0, _, _ => .noFuel
  | n + 1, left, s =>
    match s.current with
    | some Token.plus =>
      match factorExpression n s.consume with
      | .ok (right, s1) => termLoop n (.binary .sum left right) s1
      | .err e => .err e
      | .fatal m => .fatal m
      | .noFuel => .noFuel
    | some Token.minus =>
      match factorExpression n s.consume with
      | .ok (right, s1) => termLoop n (.binary .minus left right) s1
      | .err e => .err e
      | .fatal m => .fatal m
      | .noFuel => .noFuel
    | _ => .ok (left, s)

/-- `Parser::factor_expression` (entry: parse the first exponent). -/
def factorExpression : ℕ → PState → Res (Expression × PState)
  | 0, _ => .noFuel
  | n + 1, s =>
    match exponentExpression n s with
    | .ok (left, s1) => factorLoop n left s1
    | .err e => .err e
    | .fatal m => .fatal m
    | .noFuel => .noFuel

/-- The `while` loop of `factor_expression` (`*` / `/` / `<<` / `>>`,
left-associative, one shared precedence level). -/
def factorLoop : ℕ → Expression → PState → Res (Expression × PState)
  | 0, _, _ => .noFuel
  | n + 1, left, s =>
    match s.current with
    | some Token.product =>
      match exponentExpression n s.consume with
      | .ok (right, s1) => factorLoop n (.binary .product left right) s1
      | .err e => .err e
      | .fatal m => .fatal m
      | .noFuel => .noFuel
    | some Token.division =>
      match exponentExpression n s.consume with
      | .ok (right, s1) => factorLoop n (.binary .division left right) s1
      | .err e => .err e
      | .fatal m => .fatal m
      | .noFuel => .noFuel
    | some Token.bytesLeft =>
      match exponentExpression n s.consume with
      | .ok (right, s1) => factorLoop n (.binary .bytesLeft left right) s1
      | .err e => .err e
      | .fatal m => .fatal m
      | .noFuel => .noFuel
    | some Token.bytesRight =>
      match exponentExpression n s.consume with
      | .ok (right, s1) => factorLoop n (.binary .bytesRight left right) s1
      | .err e => .err e
      | .fatal m => .fatal m
      | .noFuel => .noFuel
    | _ => .ok (left, s)

/-- `Parser::exponent_expression` (entry: parse the literal). -/
def exponentExpression : ℕ → PState → Res (Expression × PState)
  | 0, _ => .noFuel
  | n + 1, s =>
    match parseLiteral n s with
    | .ok (left, s1) => exponentLoop n left s1
    | .err e => .err e
    | .fatal m => .fatal m
    | .noFuel => .noFuel

/-- The `while` loop of `exponent_expression`: on `^` the right-hand side
recurses into `exponent_expression` itself (right-associative). -/
def exponentLoop : ℕ → Expression → PState → Res (Expression × PState)
  | 0, _, _ => .noFuel
  | n + 1, left, s =>
    match s.current with
    | some Token.exponent =>
      match exponentExpression n s.consume with
      | .ok (right, s1) => exponentLoop n (.binary .exponent left right) s1
      | .err e => .err e
      | .fatal m => .fatal m
      | .noFuel => .noFuel
    | _ => .ok (left, s)

/-- `Parser::parse_literal`.  A `Number`, `Identifier` or parenthesised
expression succeeds; a missing `)` or any other token hits a `panic!`
(modelled as `fatal`). -/
def parseLiteral : ℕ → PState → Res (Expression × PState)
  | 0, _ => .noFuel
  | n + 1, s =>
    match s.current with
    | some (Token.number v) => .ok (.number v, s.consume)
    | some Token.openParen =>
      match termExpression n s.consume with
      | .ok (expr, s1) =>
        match s1.current with
        | some Token.closeParen => .ok (expr, s1.consume)
        | _ => .fatal "Expected ')' at the end"
      | .err e => .err e
      | .fatal m => .fatal m
      | .noFuel => .noFuel
    | some (Token.identifier id) => .ok (.identifier id, s.consume)
    | _ => .fatal "Expected a number"

end

/-- `Parser::parse_expression` (delegates to `term_expression`). -/
def parseExpression (n : ℕ) (s : PState) : Res (Expression × PState) :=
  termExpression n s

/-- The color `match` inside `Parser::parse`'s `"lsd"` arm. -/
def colorOfName (name : String) : Option Colored :=
  if name = "red" then some .red
  else if name = "blue" then some .blue
  else if name = "green" then some .green
  else if name = "yellow" then some .yellow
  else if name = "multicolor" ∨ name = "multi" then some .multiColor
  else none

/-- The statement `while` loop of `Parser::parse`.  In the `"lsd"` and
`"vicer"` arms the source pulls the next raw token straight off the
iterator (`self.tokens.next()`), bypassing `current`, and then calls
`consume`; the explicit `⟨s.tokens.tail.tail, s.tokens.tail.head?⟩`
states mirror that.  After each statement the current token must be
`EndOfStatement`. -/
def parseLoop : ℕ → List Statement → PState → Res (List Statement)
  | 0, _, _ => .noFuel
  | n + 1, acc, s =>
    match s.current with
    | none => .ok acc
    | some (Token.identifier id) =>
      if id = "zipette" then
        match parseExpression n s.consume with
        | .ok (e, s1) =>
          if s1.current = some Token.endOfStatement then
            parseLoop n (acc ++ [Statement.print e]) s1.consume
          else .err "Unexpected end of statement (; required)"
        | .err e => .err e
        | .fatal m => .fatal m
        | .noFuel => .noFuel
      else if id = "lsd" then
        match s.tokens.head? with
        | some (Token.identifier tk) =>
          let s1 : PState := ⟨s.tokens.tail.tail, s.tokens.tail.head?⟩
          match colorOfName tk with
          | none => .err ("Unrecognised color type '" ++ tk ++ "'")
          | some color =>
            match parseExpression n s1 with
            | .ok (e, s2) =>
              if s2.current = some Token.endOfStatement then
                parseLoop n (acc ++ [Statement.printColored color e]) s2.consume
              else .err "Unexpected end of statement (; required)"
            | .err e => .err e
            | .fatal m => .fatal m
            | .noFuel => .noFuel
        | _ => .err "Unexpected end of statement (; required)"
      else if id = "vicer" then
        match s.tokens.head? with
        | some (Token.identifier tk) =>
          let s1 : PState := ⟨s.tokens.tail.tail, s.tokens.tail.head?⟩
          match parseExpression n s1 with
          | .ok (e, s2) =>
            if s2.current = some Token.endOfStatement then
              parseLoop n (acc ++ [Statement.assignment tk e]) s2.consume
            else .err "Unexpected end of statement (; required)"
          | .err e => .err e
          | .fatal m => .fatal m
          | .noFuel => .noFuel
        | _ => .err "Unexpected variable name"
      else .err ("Unexpected identifier '" ++ id ++ "'")
    | some _ =>
      match parseExpression n s with
      | .ok (e, s1) =>
        if s1.current = some Token.endOfStatement then
          parseLoop n (acc ++ [Statement.expression e]) s1.consume
        else .err "Unexpected end of statement (; required)"
      | .err e => .err e
      | .fatal m => .fatal m
      | .noFuel => .noFuel

/-- `Parser::parse` on a finite token list; the fuel bound is generous
(every step of every loop consumes a token within a fixed call depth). -/
def parseProgram (ts : List Token) : Res (List Statement) :=
  parseLoop (8 * ts.length + 8) [] (PState.new ts)

/-- Scanning followed by parsing (`none` = the scan itself did not finish
within its fuel, which never happens below). -/
def parseText (src : String) : Option (Res (List Statement)) :=
  (scan src).map parseProgram

/-- The `HashMap<String, f64>` variable store, as an association list with
unique keys (the only operations the source performs are `get` and
`insert`). -/
abbrev Env := List (String × ℚ)

/-- `HashMap::get`. -/
def lookupVar : Env → String → Option ℚ
  | [], _ => none
  | (k, v) :: rest, id => if k = id then some v else lookupVar rest id

/-- `HashMap::insert` (insert-or-overwrite). -/
def insertVar : Env → String → ℚ → Env
  | [], k, v => [(k, v)]
  | (k0, v0) :: rest, k, v =>
    if k0 = k then (k, v) :: rest else (k0, v0) :: insertVar rest k v

/-- `f64::powf`, modelled at integer exponents (where `powf` is exact for
the bases and results the program's claims evaluate).  A non-integer
exponent is outside the modelled domain; no claim depends on one. -/
def powf (l r : ℚ) : ℚ :=
  if r.den = 1 then
    if 0 ≤ r.num then l ^ r.num.toNat else (l ^ (-r.num).toNat)⁻¹
  else 0

/-- `.trunc() as u64`: truncation toward zero followed by Rust's
saturating float-to-integer cast (negative values to 0, large values to
`u64::MAX`). -/
def f64ToU64 (q : ℚ) : ℕ :=
  if q < 0 then 0 else min q.floor.toNat (2 ^ 64 - 1)

/-- `as u32`: Rust's saturating float-to-integer cast (truncation toward
zero, negative values to 0, large values to `u32::MAX`). -/
def f64ToU32 (q : ℚ) : ℕ :=
  if q < 0 then 0 else min q.floor.toNat (2 ^ 32 - 1)

/-- `u64::checked_shl`: `none` iff the shift amount is `≥ 64`; otherwise
the value shift discards overflowing bits (mod `2 ^ 64`). -/
def checkedShl (x s : ℕ) : Option ℕ :=
  if s < 64 then some (x * 2 ^ s % 2 ^ 64) else none

/-- `u64::checked_shr`. -/
def checkedShr (x s : ℕ) : Option ℕ :=
  if s < 64 then some (x / 2 ^ s) else none

/-- `⌊log₂ n⌋` for `1 ≤ n < 2 ^ 64`, computed by bounded search so the
kernel can evaluate it. -/
def log2u64 (n : ℕ) : ℕ :=
  ((List.range 64).filter (fun e => 2 ^ e ≤ n)).length - 1

/-- `u64 as f64`: round to nearest even at 53 significant bits (exact
below `2 ^ 53`). -/
def u64ToF64 (n : ℕ) : ℚ :=
  if n < 2 ^ 53 then (n : ℚ)
  else
    let k := log2u64 n - 52
    let g := 2 ^ k
    let q := n / g
    let r := n % g
    if 2 * r < g then ((q * g : ℕ) : ℚ)
    else if g < 2 * r then ((q * g + g : ℕ) : ℚ)
    else if q % 2 = 0 then ((q * g : ℕ) : ℚ) else ((q * g + g : ℕ) : ℚ)

instance instDecEqExceptRat : DecidableEq (Except String ℚ) := fun a b =>
  match a, b with
  | .ok x, .ok y =>
    if h : x = y then isTrue (by rw [h]) else isFalse (fun hh => h (Except.ok.inj hh))
  | .error x, .error y =>
    if h : x = y then isTrue (by rw [h]) else isFalse (fun hh => h (Except.error.inj hh))
  | .ok _, .error _ => isFalse (fun hh => Except.noConfusion hh)
  | .error _, .ok _ => isFalse (fun hh => Except.noConfusion hh)

/-- `Expression::evaluate`.  The `ExecuteError` payload is its message
string.  Both operands of a binary node are evaluated left first, each
`?` propagating the first error. -/
def Expression.evaluate : Expression → Env → Except String ℚ
  | .identifier id, vars =>
    match lookupVar vars id with
    | some value => .ok value
    | none => .error ("use of undefined variable " ++ id)
  | .number n, _ => .ok n
  | .binary op left right, vars =>
    match left.evaluate vars with
    | .error e => .error e
    | .ok lv =>
      match right.evaluate vars with
      | .error e => .error e
      | .ok rv =>
        .ok (match op with
          | .sum => lv + rv
          | .product => lv * rv
          | .division => lv / rv
          | .minus => lv - rv
          | .exponent => powf lv rv
          | .bytesLeft => u64ToF64 ((checkedShl (f64ToU64 lv) (f64ToU32 rv)).getD 0)
          | .bytesRight => u64ToF64 ((checkedShr (f64ToU64 lv) (f64ToU32 rv)).getD 0))

/-- Result of executing one statement (or a statement list): the variable
store after the call and the numeric values printed, or the
`ExecuteError` message together with the store and the output already
produced when the error was raised (an early `?` return leaves the
`&mut` store as it was).  Color rendering is abstracted away: the output
records the values printed, whatever their styling. -/
inductive ExecResult where
  | ok : Env → List ℚ → ExecResult
  | error : String → Env → List ℚ → ExecResult
deriving DecidableEq

/-- `Statement::execute`.  In every arm the expression is evaluated
before any printing or insertion happens, so an error leaves the store
untouched and prints nothing. -/
def Statement.execute : Statement → Env → ExecResult
  | .expression expr, vars =>
    match expr.evaluate vars with
    | .ok _ => .ok vars []
    | .error m => .error m vars []
  | .print expr, vars =>
    match expr.evaluate vars with
    | .ok v => .ok vars [v]
    | .error m => .error m vars []
  | .printColored _ expr, vars =>
    match expr.evaluate vars with
    | .ok v => .ok vars [v]
    | .error m => .error m vars []
  | .assignment lhs rhs, vars =>
    match rhs.evaluate vars with
    | .ok v => .ok (insertVar vars lhs v) []
    | .error m => .error m vars []

/-- The `try_for_each` inside `Interpreter::interpret`: statements run
strictly in sequence and the first error stops everything after it. -/
def runAll : List Statement → Env → List ℚ → ExecResult
  | [], vars, out => .ok vars out
  | s :: rest, vars, out =>
    match s.execute vars with
    | .ok v1 o => runAll rest v1 (out ++ o)
    | .error m v1 o => .error m v1 (out ++ o)

/-- Everything observable about one `Interpreter::interpret` call: the
`f64` it returns, the numeric values printed by the statements, and the
error message printed in red by `inspect_err` (if any). -/
structure InterpretOutcome where
  retVal : ℚ
  printed : List ℚ
  errorPrinted : Option String
deriving DecidableEq

/-- `Interpreter::interpret`: runs the program on a fresh empty store
(`Interpreter::new`), prints any `ExecuteError` itself (`inspect_err`),
discards it (`let _ =`), and returns `1.0` unconditionally. -/
def interpret (program : List Statement) : InterpretOutcome :=
  match runAll program [] [] with
  | .ok _ out => ⟨1, out, none⟩
  | .error m _ out => ⟨1, out, some m⟩

/-- Observer for the claims about bare-expression programs: scan and
parse `src`, and when the program is a single `Expression` statement
evaluate that expression on the empty store (`none` otherwise). -/
def evalFirstExpression (src : String) : Option (Except String ℚ) :=
  match parseText src with
  | some (Res.ok [Statement.expression e]) => some (e.evaluate [])
  | _ => none

/-- C1 (amended): when the first statement of a program fails, its error
aborts all remaining statements (no partial continuation, `rest` is
never touched), but `Interpreter::interpret` itself prints the
`ExecuteError` and returns `1.0` to its caller — the error is not
returned. -/
theorem interpret_aborts_and_discards_error (s : Statement) (rest : List Statement)
    (e : String) (v1 : Env) (o1 : List ℚ) (h : s.execute [] = .error e v1 o1) :
    interpret (s :: rest) = ⟨1, o1, some e⟩ := by
  simp [interpret, runAll, h]

/-- Witness for C1's amended theorem at a concrete failing program. -/
theorem interpret_aborts_and_discards_error_witness :
    interpret [Statement.expression (.identifier "z"), Statement.print (.number 7)] =
      ⟨1, [], some ("use of undefined variable z")⟩ :=
  interpret_aborts_and_discards_error (Statement.expression (.identifier "z"))
    [Statement.print (.number 7)] ("use of undefined variable z") [] [] (by decide)

/-- C1 counterexample: for a program whose first statement references an
unbound variable, `interpret` returns the plain number `1.0` — the same
value every successful run returns — with the `ExecuteError` only
printed, not returned to the caller as the claim states. -/
theorem interpret_returns_one_not_the_error :
    interpret [Statement.print (.identifier "x"), Statement.print (.number 5)] =
      ⟨1, [], some ("use of undefined variable x")⟩ := by
  decide

/-- C2: scanning, parsing and evaluating the three programs yields 14, 10
and 20; the parse trees show multiplication binding tighter than
addition, exponent tighter than multiplication, and parentheses
overriding both. -/
theorem precedence_of_operators :
    parseText "2 + 3 * 4;" = some (.ok [Statement.expression
      (.binary .sum (.number 2) (.binary .product (.number 3) (.number 4)))]) ∧
    evalFirstExpression "2 + 3 * 4;" = some (.ok 14) ∧
    parseText "2 * 3 + 4;" = some (.ok [Statement.expression
      (.binary .sum (.binary .product (.number 2) (.number 3)) (.number 4))]) ∧
    evalFirstExpression "2 * 3 + 4;" = some (.ok 10) ∧
    parseText "(2 + 3) * 2 ^ 2;" = some (.ok [Statement.expression
      (.binary .product (.binary .sum (.number 2) (.number 3))
        (.binary .exponent (.number 2) (.number 2)))]) ∧
    evalFirstExpression "(2 + 3) * 2 ^ 2;" = some (.ok 20) := by
  decide

/-- C3: at a `'<'` the scanner yields `BytesLeft` whether or not a second
`'<'` follows — even a lone `'<'` is never `Useless('<')` — and the
cursor does not advance at all (the state returned is the state passed
in), because the source's `'<'` arm never calls `consume()`. -/
theorem lt_yields_bytesLeft_without_advancing :
    nextToken ⟨['<', 'a'], 0⟩ = some (Token.bytesLeft, ⟨['<', 'a'], 0⟩) ∧
    nextToken ⟨['<', '<'], 0⟩ = some (Token.bytesLeft, ⟨['<', '<'], 0⟩) := by
  decide

/-- C4: on the input `"<"` every call to `next_token` returns
`Some(BytesLeft)` with the lexer state unchanged, so the token sequence
never reaches `None`: the stream is infinite, refuting finiteness for
every input. -/
theorem token_stream_infinite_on_lt (n : ℕ) :
    nthLexState ⟨['<'], 0⟩ n = some (Token.bytesLeft, ⟨['<'], 0⟩) := by
  induction n with
  | zero => decide
  | succ n ih =>
    simp only [nthLexState, ih]
    decide

/-- Concrete instance of C4's theorem. -/
theorem token_stream_infinite_on_lt_witness :
    nthLexState ⟨['<'], 0⟩ 3 = some (Token.bytesLeft, ⟨['<'], 0⟩) :=
  token_stream_infinite_on_lt 3

/-- C5 counterexample: the token stream of `"2 +;"` has a non-primary
token where a number, variable or `(` is required, and `parse` hits the
source's `panic!` (modelled `fatal`), not a recoverable `ParseError`. -/
theorem parse_panics_on_missing_operand :
    parseText "2 +;" = some (.fatal "Expected a number") := by
  decide

/-- C5 (amended): an unexpected or missing token inside an expression — a
missing `)` or a non-primary token where a number, variable or `(` is
required — aborts parsing through a fatal `panic!`; only statement-level
problems (unknown leading identifier, missing `;`) come back as
recoverable `ParseError`s. -/
theorem parse_fatal_inside_expression_recoverable_outside :
    parseText "(2;" = some (.fatal "Expected ')' at the end") ∧
    parseText "2 + +;" = some (.fatal "Expected a number") ∧
    parseText "foo 2;" = some (.err "Unexpected identifier 'foo'") ∧
    parseText "zipette 5" = some (.err "Unexpected end of statement (; required)") := by
  decide

/-- C6: `"2 ^ 3 ^ 2;"` parses with the right-hand side of `^` recursing
into the exponent level itself, and evaluates to `2 ^ (3 ^ 2) = 512`,
not `(2 ^ 3) ^ 2 = 64`. -/
theorem exponent_right_associative :
    parseText "2 ^ 3 ^ 2;" = some (.ok [Statement.expression
      (.binary .exponent (.number 2) (.binary .exponent (.number 3) (.number 2)))]) ∧
    evalFirstExpression "2 ^ 3 ^ 2;" = some (.ok 512) ∧
    evalFirstExpression "2 ^ 3 ^ 2;" ≠ some (.ok 64) := by
  decide

/-- C7 counterexample: `purple` is in the claim's enumerated color set,
yet the parser rejects it with a `ParseError`. -/
theorem color_purple_rejected :
    parseText "lsd purple 2;" = some (.err "Unrecognised color type 'purple'") := by
  decide

/-- C7 (amended): the color names the `lsd` statement accepts are exactly
`red`, `blue`, `green`, `yellow` and `multicolor` (with alias `multi`);
the other names of the claim's enumerated set — purple, cyan, orange,
white, brown, pink — all yield a recoverable `ParseError`. -/
theorem color_names_accepted_and_rejected :
    parseText "lsd red 2;" = some (.ok [Statement.printColored .red (.number 2)]) ∧
    parseText "lsd blue 2;" = some (.ok [Statement.printColored .blue (.number 2)]) ∧
    parseText "lsd green 2;" = some (.ok [Statement.printColored .green (.number 2)]) ∧
    parseText "lsd yellow 2;" = some (.ok [Statement.printColored .yellow (.number 2)]) ∧
    parseText "lsd multicolor 2;" =
      some (.ok [Statement.printColored .multiColor (.number 2)]) ∧
    parseText "lsd multi 2;" = some (.ok [Statement.printColored .multiColor (.number 2)]) ∧
    parseText "lsd purple 2;" = some (.err "Unrecognised color type 'purple'") ∧
    parseText "lsd cyan 2;" = some (.err "Unrecognised color type 'cyan'") ∧
    parseText "lsd orange 2;" = some (.err "Unrecognised color type 'orange'") ∧
    parseText "lsd white 2;" = some (.err "Unrecognised color type 'white'") ∧
    parseText "lsd brown 2;" = some (.err "Unrecognised color type 'brown'") ∧
    parseText "lsd pink 2;" = some (.err "Unrecognised color type 'pink'") := by
  decide

/-- C8 counterexample: `right = 63.5` exceeds 63, yet `1 << 63.5`
evaluates to `2 ^ 63`, not `0`, because the shift amount is the `as u32`
truncation of `right`, here `63 < 64`. -/
theorem shift_just_above_63_not_zero :
    Expression.evaluate (.binary .bytesLeft (.number 1) (.number (mkRat 127 2))) [] =
      .ok 9223372036854775808 ∧ (9223372036854775808 : ℚ) ≠ 0 := by
  decide

/-- C8 (amended): whenever the right operand is at least 64 — which for
integral operands is exactly "exceeds 63" — `left << right` saturates to
`0` for every left operand and store: `checked_shl` refuses the shift
and `unwrap_or(0)` makes it zero, with no panic and no wraparound. -/
theorem shift_amount_ge_64_saturates_to_zero (l r : ℚ) (vars : Env) (h : 64 ≤ r) :
    Expression.evaluate (.binary .bytesLeft (.number l) (.number r)) vars = .ok 0 := by
  have hr0 : ¬ r < 0 := not_lt.mpr (le_trans (by norm_num) h)
  have hfl : (64 : ℤ) ≤ r.floor := Rat.le_floor.mpr (by exact_mod_cast h)
  have hge : 64 ≤ f64ToU32 r := by
    unfold f64ToU32
    rw [if_neg hr0]
    refine le_min ?_ (by norm_num)
    have h1 := Int.toNat_le_toNat hfl
    simpa using h1
  have hnone : checkedShl (f64ToU64 l) (f64ToU32 r) = none := by
    unfold checkedShl
    rw [if_neg (by omega)]
  simp [Expression.evaluate, hnone, u64ToF64]

/-- Witness for C8's amended theorem: `5 << 100` evaluates to `0`. -/
theorem shift_amount_ge_64_saturates_to_zero_witness :
    Expression.evaluate (.binary .bytesLeft (.number 5) (.number 100)) [] = .ok 0 :=
  shift_amount_ge_64_saturates_to_zero 5 100 [] (by norm_num)

/-- C9: the one-statement program `zipette x;` (the language's `print x;`)
with `x` never assigned parses to a single `Print` of the variable `x`
and fails with an execution error whose message names `x`; its printed
output is empty. -/
theorem undefined_variable_print_fails_names_x :
    parseText "zipette x;" = some (.ok [Statement.print (.identifier "x")]) ∧
    interpret [Statement.print (.identifier "x")] =
      ⟨1, [], some ("use of undefined variable " ++ "x")⟩ := by
  decide

/-- C10: if the right-hand side of an assignment fails to evaluate, the
error is returned and the variable store comes back exactly as it was —
no binding added, removed or changed, and nothing printed. -/
theorem assignment_atomic_on_error (lhs : String) (rhs : Expression) (vars : Env)
    (e : String) (h : rhs.evaluate vars = .error e) :
    Statement.execute (.assignment lhs rhs) vars = .error e vars [] := by
  simp [Statement.execute, h]

/-- Witness for C10 at a concrete failing assignment. -/
theorem assignment_atomic_on_error_witness :
    Statement.execute (.assignment "y" (.identifier "x")) [] =
      .error ("use of undefined variable x") [] [] :=
  assignment_atomic_on_error "y" (.identifier "x") []
    ("use of undefined variable x") (by decide)

end ZInterp
